import Mathlib

/-!
Shallow embedding of the variable-registry core of the python-cybro repository
(src/src/cybro/models.py and the post-transport steps of src/src/cybro/cybro.py).

Python dictionaries are modelled as association lists with unique keys
(`PyDict`); Python exceptions are modelled by the `PyError` type and fallible
code returns `Except`.  An operation that mutates `self` in Python is modelled
as a function from the old state to the new state; when the Python code can
raise after having already mutated some state, the error value carries the
state at the moment of the raise.
-/

/-- A Python `dict` with `String` keys: an association list, keys unique. -/
abbrev PyDict (V : Type) := List (String × V)

/-- `k in d` for a Python dict. -/
def dictHasKey {V : Type} (d : PyDict V) (k : String) : Bool :=
  d.any (fun p => p.1 == k)

/-- `d.get(k)` for a Python dict: `none` models Python `None` (key absent). -/
def dictGet {V : Type} (d : PyDict V) (k : String) : Option V :=
  (d.find? (fun p => p.1 == k)).map (fun p => p.2)

/-- `d.update({k: v})` / `d[k] = v`: overwrite in place if the key is present,
append at the end otherwise (Python dicts preserve insertion order). -/
def dictSet {V : Type} (d : PyDict V) (k : String) (v : V) : PyDict V :=
  if dictHasKey d k then d.map (fun p => if p.1 == k then (k, v) else p)
  else d ++ [(k, v)]

/-- `d.pop(k)` (the removal part; the caller checks for presence): since keys
are unique, removing every pair with key `k` removes the single entry. -/
def dictDel {V : Type} (d : PyDict V) (k : String) : PyDict V :=
  d.filter (fun p => p.1 != k)

/-- Python exceptions raised (directly or indirectly) by the embedded code. -/
inductive PyError where
  /-- built-in `AttributeError` (e.g. `None.value`, `"".value`, `None.splitlines()`) -/
  | attributeError
  /-- built-in `TypeError` (bad subscript / iteration / `str + None`) -/
  | typeError
  /-- built-in `KeyError`, carrying the missing key -/
  | keyError (key : String)
  /-- built-in `IndexError` (`[][0]`) -/
  | indexError
  /-- `CybroError(msg)` from src/src/cybro/exceptions.py -/
  | cybroError (msg : String)
  /-- `CybroPlcNotFoundError(f"Cybro PLC with NAD n not found")`: carries the NAD -/
  | plcNotFound (nad : Int)
  /-- `CybroEmptyResponseError` raised by Cybro.read_var on a falsy response -/
  | emptyResponse
deriving DecidableEq

/-- models.py `Var`: the three fields are whatever `data.get(...)` returned in
`Var.from_dict`, hence `Option String` (`none` models Python `None`). -/
structure Var where
  name : Option String
  value : Option String
  description : Option String
deriving DecidableEq

/-- A decoded variable record (one `var` element of a response), with keys
`name`, `value`, `description` in that order; `none` models an absent key. -/
structure VarRec where
  name : Option String
  value : Option String
  description : Option String
deriving DecidableEq

/-- models.py `Var.from_dict`: reads the three keys with `.get` (no error). -/
def Var.from_dict (r : VarRec) : Var :=
  { name := r.name, value := r.value, description := r.description }

/-- models.py `Var.value_string`: returns the stored value unchanged. -/
def Var.value_string (v : Var) : Option String :=
  v.value

/-- models.py `Var.value_int`: `int(self.value)`; `int(None)` is a `TypeError`,
a non-numeric string a `ValueError` (both model as the raised error). -/
def Var.value_int (v : Var) : Except PyError Int :=
  match v.value with
  | none => .error .typeError
  | some s =>
    match s.toInt? with
    | some i => .ok i
    | none => .error .typeError

/-- models.py `Var.value_bool`: `bool(self.value == "1")`. -/
def Var.value_bool (v : Var) : Bool :=
  v.value == some "1"

/-- models.py `ServerInfo`: the 14 fields filled by `from_vars` hold the raw
`Var.value` payloads; the remaining fields keep their `""` defaults. -/
structure ServerInfo where
  scgi_port_status : Option String
  server_uptime : Option String
  scgi_request_pending : Option String
  scgi_request_count : Option String
  push_port_status : Option String
  push_count : Option String
  push_ack_errors : Option String
  push_list_count : Option String
  cache_request : Option String
  cache_valid : Option String
  server_version : Option String
  udp_rx_count : Option String
  udp_tx_count : Option String
  datalogger_status : Option String
  nad_list : String := ""
  push_list : String := ""
  abus_list : String := ""
  datalogger_list : String := ""
  proxy_activity_list : String := ""
deriving DecidableEq

/-- `vmap.get(k).value` resp. `vmap.get(k, "").value`: when the key
is absent the receiver is `None` resp. the string `""`, and neither has a
`.value` attribute, so Python raises `AttributeError` in both cases. -/
def getAttrValue (vmap : PyDict Var) (k : String) : Except PyError (Option String) :=
  match dictGet vmap k with
  | some v => .ok v.value
  | none => .error .attributeError

/-- models.py `ServerInfo.from_vars`: looks up the 14 required `sys.*` names in
keyword-argument order; the first absent name raises `AttributeError`
(uncaught — there is no try/except around this body). -/
def ServerInfo.from_vars (vmap : PyDict Var) : Except PyError ServerInfo := do
  let f01 ← getAttrValue vmap "sys.scgi_port_status"
  let f02 ← getAttrValue vmap "sys.server_uptime"
  let f03 ← getAttrValue vmap "sys.scgi_request_pending"
  let f04 ← getAttrValue vmap "sys.scgi_request_count"
  let f05 ← getAttrValue vmap "sys.push_port_status"
  let f06 ← getAttrValue vmap "sys.push_count"
  let f07 ← getAttrValue vmap "sys.push_ack_errors"
  let f08 ← getAttrValue vmap "sys.push_list_count"
  let f09 ← getAttrValue vmap "sys.cache_request"
  let f10 ← getAttrValue vmap "sys.cache_valid"
  let f11 ← getAttrValue vmap "sys.server_version"
  let f12 ← getAttrValue vmap "sys.udp_rx_count"
  let f13 ← getAttrValue vmap "sys.udp_tx_count"
  let f14 ← getAttrValue vmap "sys.datalogger_status"
  pure { scgi_port_status := f01, server_uptime := f02,
         scgi_request_pending := f03, scgi_request_count := f04,
         push_port_status := f05, push_count := f06,
         push_ack_errors := f07, push_list_count := f08,
         cache_request := f09, cache_valid := f10,
         server_version := f11, udp_rx_count := f12,
         udp_tx_count := f13, datalogger_status := f14 }

/-- models.py `PlcInfo` (the `alc_file` field holds the raw `Var.value`). -/
structure PlcInfo where
  nad : Int
  ip_port : Option String
  timestamp : Option String
  plc_program_status : Option String
  response_time : Option String
  bytes_transferred : Option String
  comm_error_count : Option String
  alc_file : Option String
  plc_vars : PyDict String
deriving DecidableEq

/-- The keys `PlcInfo.from_vars` looks up for a given NAD, in lookup order. -/
def requiredPlcKeys (nad : Int) : List String :=
  [ "c" ++ toString nad ++ ".sys.ip_port",
    "c" ++ toString nad ++ ".sys.timestamp",
    "c" ++ toString nad ++ ".sys.plc_program_status",
    "c" ++ toString nad ++ ".sys.response_time",
    "c" ++ toString nad ++ ".sys.bytes_transferred",
    "c" ++ toString nad ++ ".sys.comm_error_count",
    "c" ++ toString nad ++ ".sys.alc_file" ]

/-- models.py `PlcInfo.from_vars`: looks up the seven `c<nad>.sys.*` keys with
default `""`; an absent key makes `"".value` raise `AttributeError`, which the
surrounding try/except converts into `CybroPlcNotFoundError` carrying the NAD. -/
def PlcInfo.from_vars (vmap : PyDict Var) (plc_nad : Int) : Except PyError PlcInfo :=
  let nad := plc_nad
  let attempt : Except PyError PlcInfo := do
    let ip ← getAttrValue vmap ("c" ++ toString plc_nad ++ ".sys.ip_port")
    let ts ← getAttrValue vmap ("c" ++ toString plc_nad ++ ".sys.timestamp")
    let ps ← getAttrValue vmap ("c" ++ toString plc_nad ++ ".sys.plc_program_status")
    let rt ← getAttrValue vmap ("c" ++ toString plc_nad ++ ".sys.response_time")
    let bt ← getAttrValue vmap ("c" ++ toString plc_nad ++ ".sys.bytes_transferred")
    let ce ← getAttrValue vmap ("c" ++ toString plc_nad ++ ".sys.comm_error_count")
    let af ← getAttrValue vmap ("c" ++ toString plc_nad ++ ".sys.alc_file")
    pure { nad := nad, ip_port := ip, timestamp := ts, plc_program_status := ps,
           response_time := rt, bytes_transferred := bt, comm_error_count := ce,
           alc_file := af, plc_vars := [] }
  match attempt with
  | .error .attributeError => .error (.plcNotFound nad)
  | r => r

/-- Python `s[a:b]` (non-negative bounds) on a string given as a char list. -/
def sliceRange (l : List Char) (a b : Nat) : List Char :=
  (l.take b).drop a

/-- Python `s[a:-1]` on a string given as a char list. -/
def sliceToLast (l : List Char) (a : Nat) : List Char :=
  l.dropLast.drop a

/-- Python `s.rstrip()`: drop trailing whitespace. -/
def rstripChars (l : List Char) : List Char :=
  (l.reverse.dropWhile (fun c => c.isWhitespace)).reverse

/-- Helper for `pySplitlines`: split a char list at every newline. -/
def splitNlAux : List Char → List Char → List (List Char)
  | [], acc => [acc.reverse]
  | c :: cs, acc =>
    if c = '\n' then acc.reverse :: splitNlAux cs []
    else splitNlAux cs (c :: acc)

/-- Python `s.splitlines()` for newline-separated text: the empty string gives
no lines and a trailing newline produces no trailing empty line. -/
def pySplitlines (s : List Char) : List (List Char) :=
  match s with
  | [] => []
  | _ =>
    let pieces := splitNlAux s []
    if s.getLast? = some '\n' then pieces.dropLast else pieces

/-- Helper for `pyWords`: accumulate the current word in reverse. -/
def pyWordsAux : List Char → List Char → List (List Char)
  | [], acc => if acc.isEmpty then [] else [acc.reverse]
  | c :: cs, acc =>
    if c.isWhitespace then
      if acc.isEmpty then pyWordsAux cs [] else acc.reverse :: pyWordsAux cs []
    else pyWordsAux cs (c :: acc)

/-- Python `s.split()`: split on whitespace runs, dropping empty tokens. -/
def pyWords (l : List Char) : List (List Char) :=
  pyWordsAux l []

/-- One line of the loop body of `PlcInfo.parse_alc_file`:
`typ = line[37:43].rstrip()` and `name = line[43:-1].split()[0].rstrip()`;
`[0]` of an empty token list raises `IndexError`. -/
def parseAlcLine (line : List Char) : Except PyError (String × String) :=
  let typ := rstripChars (sliceRange line 37 43)
  match pyWords (sliceToLast line 43) with
  | [] => .error .indexError
  | t :: _ => .ok (String.mk (rstripChars t), String.mk typ)

/-- The loop of `PlcInfo.parse_alc_file`: insert `pref ++ name` with the
declared type into the result dict, line by line. -/
def parseAlcLines (pref : String) : List (List Char) → PyDict String → Except PyError (PyDict String)
  | [], res => .ok res
  | l :: ls, res =>
    match parseAlcLine l with
    | .error e => .error e
    | .ok nt => parseAlcLines pref ls (dictSet res (pref ++ nt.1) nt.2)

/-- models.py `PlcInfo.parse_alc_file`: `self.alc_file.splitlines()` raises
`AttributeError` when `alc_file` is `None`; otherwise the first two (header)
lines are skipped and each remaining line contributes one catalog entry.
Returns the updated object together with the returned dict. -/
def PlcInfo.parse_alc_file (p : PlcInfo) : Except PyError (PlcInfo × PyDict String) :=
  let pref := "c" ++ toString p.nad ++ "."
  match p.alc_file with
  | none => .error .attributeError
  | some content =>
    match parseAlcLines pref ((pySplitlines content.data).drop 2) [] with
    | .error e => .error e
    | .ok res => .ok ({ p with plc_vars := res }, res)

/-- The possible values of the `var` entry of a decoded response: Python
`None`, a single bare record object, or an ordered sequence of records. -/
inductive VarField where
  | vNone
  | one (r : VarRec)
  | seq (rs : List VarRec)
deriving DecidableEq

/-- A decoded scgi response mapping (`response_data.get("data")`): `var` is the
value of its `"var"` key (`none` = key absent) and `extras` counts any further
top-level keys (their names and values are never read by the embedded code;
they only contribute to `len(data)`, and none of them is called `"name"`). -/
structure RespData where
  var : Option VarField
  extras : Nat
deriving DecidableEq

/-- `len(data)` for a decoded response mapping. -/
def RespData.size (data : RespData) : Nat :=
  (if data.var.isSome then 1 else 0) + data.extras

/-- The three class-level dict attributes of models.py `Device`.  In Python
they are declared on the class with mutable `{}` defaults and only ever
mutated via `.update`/`.pop`, so every `Device` instance of the process reads
and writes this same state; the embedding therefore threads one `Registry`
value through all constructions and method calls. -/
structure Registry where
  vars : PyDict Var
  user_vars : PyDict String
  vars_types : PyDict Int
deriving DecidableEq

/-- The registry at interpreter start: all three class-level dicts empty. -/
def Registry.empty : Registry :=
  { vars := [], user_vars := [], vars_types := [] }

/-- The per-instance attributes set by `Device.update_from_dict`
(`plc_info` is only assigned when a non-zero NAD is passed). -/
structure DeviceFields where
  info : String
  server_info : ServerInfo
  plc_info : Option PlcInfo
deriving DecidableEq

/-- models.py `Device.add_var`: `user_vars[name] = ""` and
`vars_types[name] = var_type`; total, idempotent. -/
def Device.add_var (reg : Registry) (name : String) (var_type : Int) : Registry :=
  { reg with user_vars := dictSet reg.user_vars name "",
             vars_types := dictSet reg.vars_types name var_type }

/-- models.py `Device.remove_var`: `user_vars.pop(name)` then
`vars_types.pop(name)`; a `pop` of an absent key raises `KeyError(name)`,
leaving the state reached so far (nothing, for the first pop). -/
def Device.remove_var (reg : Registry) (name : String) :
    Except (PyError × Registry) Registry :=
  if dictHasKey reg.user_vars name then
    let reg1 : Registry := { reg with user_vars := dictDel reg.user_vars name }
    if dictHasKey reg1.vars_types name then
      .ok { reg1 with vars_types := dictDel reg1.vars_types name }
    else .error (.keyError name, reg1)
  else .error (.keyError name, reg)

/-- models.py `Device.update_var`.  `len(data) == 1` selects the bare-object
branch, which subscripts `data["var"]` with `"name"`: this succeeds only for a
record object (a sequence or `None` raises `TypeError`, a missing `"var"` key
`KeyError`).  Otherwise the code iterates `data["var"]`: over a sequence it
merges the first record into all three dicts and returns its raw value
(discarding the rest); over a bare record object the loop yields the record's
key strings and subscripting a string raises `TypeError`; an empty iteration
falls through to `return "?"`. -/
def Device.update_var (reg : Registry) (data : RespData) (var_type : Int) :
    Except (PyError × Registry) (Option String × Registry) :=
  if data.size == 1 then
    match data.var with
    | none => .error (.keyError "var", reg)
    | some .vNone => .error (.typeError, reg)
    | some (.seq _) => .error (.typeError, reg)
    | some (.one r) =>
      match r.name with
      | none => .error (.keyError "name", reg)
      | some n =>
        let reg1 : Registry :=
          { reg with vars := dictSet reg.vars n (Var.from_dict r),
                     vars_types := dictSet reg.vars_types n var_type,
                     user_vars := dictSet reg.user_vars n "" }
        .ok (r.value, reg1)
  else
    match data.var with
    | none => .error (.keyError "var", reg)
    | some .vNone => .error (.typeError, reg)
    | some (.one r) =>
      if r.name.isSome || r.value.isSome || r.description.isSome then
        .error (.typeError, reg)
      else .ok (some "?", reg)
    | some (.seq rs) =>
      match rs with
      | [] => .ok (some "?", reg)
      | r :: _ =>
        match r.name with
        | none => .error (.keyError "name", reg)
        | some n =>
          let reg1 : Registry :=
            { reg with vars := dictSet reg.vars n (Var.from_dict r),
                       vars_types := dictSet reg.vars_types n var_type,
                       user_vars := dictSet reg.user_vars n "" }
          .ok (r.value, reg1)

/-- The sequence branch of `Device.update_user_var_from_dict`: each record is
merged into `vars` only (`_var["name"]` raises `KeyError` if absent). -/
def mergeUserVars (reg : Registry) : List VarRec → Except (PyError × Registry) Registry
  | [] => .ok reg
  | r :: rs =>
    match r.name with
    | none => .error (.keyError "name", reg)
    | some n =>
      mergeUserVars { reg with vars := dictSet reg.vars n (Var.from_dict r) } rs

/-- models.py `Device.update_user_var_from_dict`.  Iterating a bare record
object yields its key strings: for the key `"name"` the code stores
`Var.from_dict(data)` built from the OUTER response mapping (which has no
`name`/`value`/`description` keys, giving `Var(None, None, None)`) under
`data["var"]["name"]`; any further key string is then subscripted with
`["name"]` and raises `TypeError`.  A sequence is merged record by record. -/
def Device.update_user_var_from_dict (reg : Registry) (data : RespData) :
    Except (PyError × Registry) Registry :=
  match data.var with
  | none => .error (.keyError "var", reg)
  | some .vNone => .error (.typeError, reg)
  | some (.one r) =>
    match r.name with
    | some n =>
      let reg1 : Registry :=
        { reg with vars := dictSet reg.vars n { name := none, value := none, description := none } }
      if r.value.isSome || r.description.isSome then .error (.typeError, reg1)
      else .ok reg1
    | none =>
      if r.value.isSome || r.description.isSome then .error (.typeError, reg)
      else .ok reg
  | some (.seq rs) => mergeUserVars reg rs

/-- The merge loop of `Device.update_from_dict`: each record of the response is
written into `vars` and its type into `vars_types` (as `0`). -/
def mergeRecords (reg : Registry) : List VarRec → Except (PyError × Registry) Registry
  | [] => .ok reg
  | r :: rs =>
    match r.name with
    | none => .error (.keyError "name", reg)
    | some n =>
      mergeRecords { reg with vars := dictSet reg.vars n (Var.from_dict r),
                              vars_types := dictSet reg.vars_types n 0 } rs

/-- The tail of `Device.update_from_dict` after the merge loop: build
`ServerInfo` from the registry (its errors propagate), compute the `info`
string (`str + None` raises `TypeError`), and for a non-zero NAD build
`PlcInfo` and parse its allocation file.  No registry dict is touched. -/
def finishFields (vmap : PyDict Var) (plc_nad : Int) : Except PyError DeviceFields :=
  match ServerInfo.from_vars vmap with
  | .error e => .error e
  | .ok si =>
    match si.server_version with
    | none => .error .typeError
    | some sv =>
      let info := "CybrotechScgiServer v" ++ sv
      if plc_nad != 0 then
        match PlcInfo.from_vars vmap plc_nad with
        | .error e => .error e
        | .ok pinfo =>
          match pinfo.parse_alc_file with
          | .error e => .error e
          | .ok pr => .ok { info := info, server_info := si, plc_info := some pr.1 }
      else .ok { info := info, server_info := si, plc_info := none }

/-- models.py `Device.update_from_dict`: iterate `data["var"]` merging records
(iterating `None` or subscripting a key string raises `TypeError`), then
derive the instance fields from the merged registry. -/
def Device.update_from_dict (reg : Registry) (data : RespData) (plc_nad : Int) :
    Except (PyError × Registry) (Registry × DeviceFields) :=
  match data.var with
  | none => .error (.keyError "var", reg)
  | some .vNone => .error (.typeError, reg)
  | some (.one r) =>
    if r.name.isSome || r.value.isSome || r.description.isSome then
      .error (.typeError, reg)
    else
      match finishFields reg.vars plc_nad with
      | .error e => .error (e, reg)
      | .ok flds => .ok (reg, flds)
  | some (.seq rs) =>
    match mergeRecords reg rs with
    | .error e => .error e
    | .ok reg1 =>
      match finishFields reg1.vars plc_nad with
      | .error e => .error (e, reg1)
      | .ok flds => .ok (reg1, flds)

/-- models.py `Device.__init__`: `data["var"]` raises `TypeError` when `data`
is `None` and `KeyError` when the key is absent; a `None` value raises
`CybroError`; otherwise `update_from_dict` runs on the shared registry. -/
def Device.init (reg : Registry) (data : Option RespData) (plc_nad : Int) :
    Except (PyError × Registry) (Registry × DeviceFields) :=
  match data with
  | none => .error (.typeError, reg)
  | some d =>
    match d.var with
    | none => .error (.keyError "var", reg)
    | some .vNone =>
      .error (.cybroError "Cybro data is incomplete, cannot construct device object", reg)
    | some _ => Device.update_from_dict reg d plc_nad

/-- models.py `VarType` (an `IntEnum`). -/
inductive VarType where
  | STR
  | INT
  | FLOAT
  | BOOL
deriving DecidableEq

/-- The integer value of a `VarType` member. -/
def VarType.toInt : VarType → Int
  | .STR => 0
  | .INT => 1
  | .FLOAT => 2
  | .BOOL => 3

/-- cybro.py `Cybro.read_var`, after the transport: a falsy response raises
`CybroEmptyResponseError`; otherwise the decoded response is handed to
`Device.update_var` and its result is returned unchanged — `var_type` is
passed through to be recorded, but no coercion is applied to the returned
value (`read_var_int` / `read_var_float` / `read_var_bool` likewise just
return this result). -/
def Cybro.read_var_step (reg : Registry) (resp : Option RespData) (var_type : Int) :
    Except (PyError × Registry) (Option String × Registry) :=
  match resp with
  | none => .error (.emptyResponse, reg)
  | some data => Device.update_var reg data var_type

/-- cybro.py `Cybro.write_var`, after the transport: the echoed response is
handed to `Device.update_var` and its result returned unchanged. -/
def Cybro.write_var_step (reg : Registry) (resp : RespData) (var_type : Int) :
    Except (PyError × Registry) (Option String × Registry) :=
  Device.update_var reg resp var_type

/-- Modelled from the spec: the Request Chunker.  The repository's tests import
`_get_chunk` from src.cybro.cybro, but its definition is not under src/; §4.2
of the spec describes it: split the ordered name set into the minimum number of
consecutive groups with no group exceeding `maxBatchSize` entries, the empty
input giving zero groups. -/
def getChunk : List String → Nat → List (List String)
  | [], _ => []
  | _ :: _, 0 => []
  | n :: rest, k + 1 => (n :: rest.take k) :: getChunk (rest.drop k) (k + 1)
termination_by names _ => names.length
decreasing_by
  simp only [List.length_drop, List.length_cons]
  omega

/-! Lemmas about the Python-dict model. -/

theorem dictHasKey_exists {V : Type} (d : PyDict V) (k : String) :
    dictHasKey d k = true ↔ ∃ x ∈ d, x.1 = k := by
  unfold dictHasKey
  rw [List.any_eq_true]
  constructor
  · rintro ⟨x, hx, he⟩
    exact ⟨x, hx, by simpa using he⟩
  · rintro ⟨x, hx, he⟩
    exact ⟨x, hx, by simpa using he⟩

theorem dictGet_eq_none {V : Type} (d : PyDict V) (k : String)
    (h : dictHasKey d k = false) : dictGet d k = none := by
  unfold dictGet
  rw [Option.map_eq_none']
  rw [List.find?_eq_none]
  intro x hx
  unfold dictHasKey at h
  rw [List.any_eq_false] at h
  exact h x hx

theorem dictHasKey_set_self {V : Type} (d : PyDict V) (k : String) (v : V) :
    dictHasKey (dictSet d k v) k = true := by
  unfold dictSet
  by_cases h : dictHasKey d k
  · rw [if_pos h]
    rcases (dictHasKey_exists d k).mp h with ⟨x, hx, hxk⟩
    rw [dictHasKey, List.any_eq_true]
    refine ⟨(k, v), List.mem_map.mpr ⟨x, hx, ?_⟩, by simp⟩
    simp [hxk]
  · rw [if_neg h, dictHasKey, List.any_eq_true]
    exact ⟨(k, v), by simp, by simp⟩

theorem dictHasKey_set_mono {V : Type} (d : PyDict V) (k k' : String) (v : V)
    (h : dictHasKey d k' = true) : dictHasKey (dictSet d k v) k' = true := by
  rcases (dictHasKey_exists d k').mp h with ⟨x, hx, hxk⟩
  unfold dictSet
  by_cases hk : dictHasKey d k
  · rw [if_pos hk, dictHasKey, List.any_eq_true]
    by_cases hxk2 : (x.1 == k) = true
    · refine ⟨(k, v), List.mem_map.mpr ⟨x, hx, by simp [hxk2]⟩, ?_⟩
      have : k = k' := by
        have := beq_iff_eq.mp hxk2
        rw [← this, hxk]
      simp [this]
    · refine ⟨x, List.mem_map.mpr ⟨x, hx, ?_⟩, by simp [hxk]⟩
      simp [hxk2]
  · rw [if_neg hk, dictHasKey, List.any_eq_true]
    exact ⟨x, List.mem_append_left _ hx, by simp [hxk]⟩

theorem mem_dictSet_cases {V : Type} {d : PyDict V} {k : String} {v : V}
    {x : String × V} (hx : x ∈ dictSet d k v) : x.1 = k ∨ x ∈ d := by
  unfold dictSet at hx
  by_cases h : dictHasKey d k
  · rw [if_pos h] at hx
    rcases List.mem_map.mp hx with ⟨p, hp, he⟩
    by_cases hpk : (p.1 == k) = true
    · left
      rw [if_pos hpk] at he
      rw [← he]
    · right
      rw [if_neg hpk] at he
      rw [← he]
      exact hp
  · rw [if_neg h] at hx
    rcases List.mem_append.mp hx with h1 | h1
    · right; exact h1
    · left
      have : x = (k, v) := by simpa using h1
      rw [this]

theorem mem_dictDel {V : Type} {d : PyDict V} {k : String} {x : String × V}
    (hx : x ∈ dictDel d k) : x ∈ d ∧ x.1 ≠ k := by
  unfold dictDel at hx
  have h := List.mem_filter.mp hx
  refine ⟨h.1, ?_⟩
  have := h.2
  simpa using this

theorem dictHasKey_del_of_ne {V : Type} (d : PyDict V) (k k' : String)
    (h : dictHasKey d k' = true) (hne : k' ≠ k) :
    dictHasKey (dictDel d k) k' = true := by
  rcases (dictHasKey_exists d k').mp h with ⟨x, hx, hxk⟩
  rw [dictHasKey, List.any_eq_true]
  refine ⟨x, List.mem_filter.mpr ⟨hx, ?_⟩, by simp [hxk]⟩
  simp [hxk, hne]

/-- The registry invariant of the spec: every watched name (`user_vars` key)
has an entry in `vars_types`. -/
def regInv (reg : Registry) : Bool :=
  reg.user_vars.all (fun p => dictHasKey reg.vars_types p.1)

/-- The registry state an operation left behind, whether it raised or not. -/
def regOfR : Except (PyError × Registry) Registry → Registry
  | .ok r => r
  | .error e => e.2

/-- The registry state left by `Device.update_var`. -/
def regOfV : Except (PyError × Registry) (Option String × Registry) → Registry
  | .ok p => p.2
  | .error e => e.2

/-- The registry state left by `Device.update_from_dict` / `Device.init`. -/
def regOfU : Except (PyError × Registry) (Registry × DeviceFields) → Registry
  | .ok p => p.1
  | .error e => e.2

theorem regInv_insert_all (reg : Registry) (n : String) (v : Var) (s : String) (ty : Int)
    (h : regInv reg = true) :
    regInv { reg with vars := dictSet reg.vars n v,
                      vars_types := dictSet reg.vars_types n ty,
                      user_vars := dictSet reg.user_vars n s } = true := by
  rw [regInv, List.all_eq_true] at h ⊢
  intro p hp
  rcases mem_dictSet_cases hp with h1 | h1
  · rw [h1]
    exact dictHasKey_set_self _ _ _
  · exact dictHasKey_set_mono _ _ _ _ (h p h1)

theorem regInv_of_mono (reg reg' : Registry) (h : regInv reg = true)
    (hu : reg'.user_vars = reg.user_vars)
    (ht : ∀ k, dictHasKey reg.vars_types k = true → dictHasKey reg'.vars_types k = true) :
    regInv reg' = true := by
  rw [regInv, List.all_eq_true] at h ⊢
  intro p hp
  rw [hu] at hp
  exact ht p.1 (h p hp)

theorem mergeRecords_mono (rs : List VarRec) : ∀ (reg : Registry),
    (regOfR (mergeRecords reg rs)).user_vars = reg.user_vars ∧
    (∀ k, dictHasKey reg.vars k = true →
      dictHasKey (regOfR (mergeRecords reg rs)).vars k = true) ∧
    (∀ k, dictHasKey reg.vars_types k = true →
      dictHasKey (regOfR (mergeRecords reg rs)).vars_types k = true) := by
  induction rs with
  | nil => exact fun reg => ⟨rfl, fun k h => h, fun k h => h⟩
  | cons r rs ih =>
    intro reg
    cases hr : r.name with
    | none =>
      simp only [mergeRecords, hr]
      exact ⟨rfl, fun k h => h, fun k h => h⟩
    | some n =>
      simp only [mergeRecords, hr]
      refine ⟨(ih _).1, fun k h => (ih _).2.1 k ?_, fun k h => (ih _).2.2 k ?_⟩
      · exact dictHasKey_set_mono _ _ _ _ h
      · exact dictHasKey_set_mono _ _ _ _ h

theorem update_from_dict_registry (reg : Registry) (data : RespData) (nad : Int) :
    regOfU (Device.update_from_dict reg data nad) = reg ∨
    regOfU (Device.update_from_dict reg data nad) = regOfR (mergeRecords reg (
      match data.var with
      | some (.seq rs) => rs
      | _ => [])) := by
  rcases hv : data.var with _ | vf
  · left
    simp [Device.update_from_dict, hv, regOfU]
  · cases vf with
    | vNone =>
      left
      simp [Device.update_from_dict, hv, regOfU]
    | one r =>
      left
      simp only [Device.update_from_dict, hv]
      by_cases h : (r.name.isSome || r.value.isSome || r.description.isSome) = true
      · rw [if_pos h]
        rfl
      · rw [if_neg h]
        cases hfin : finishFields reg.vars nad with
        | error e => simp [regOfU, hfin]
        | ok flds => simp [regOfU, hfin]
    | seq rs =>
      right
      simp only [Device.update_from_dict, hv]
      cases hm : mergeRecords reg rs with
      | error e => simp [regOfR, regOfU, hm]
      | ok reg1 =>
        cases hfin : finishFields reg1.vars nad with
        | error e => simp [regOfR, regOfU, hm, hfin]
        | ok flds => simp [regOfR, regOfU, hm, hfin]

theorem init_registry_mono (reg : Registry) (data : Option RespData) (nad : Int) :
    (regOfU (Device.init reg data nad)).user_vars = reg.user_vars ∧
    (∀ k, dictHasKey reg.vars k = true →
      dictHasKey (regOfU (Device.init reg data nad)).vars k = true) ∧
    (∀ k, dictHasKey reg.vars_types k = true →
      dictHasKey (regOfU (Device.init reg data nad)).vars_types k = true) := by
  cases data with
  | none => exact ⟨rfl, fun k h => h, fun k h => h⟩
  | some d =>
    cases hv : d.var with
    | none =>
      simp only [Device.init, hv]
      exact ⟨rfl, fun k h => h, fun k h => h⟩
    | some vf =>
      cases vf with
      | vNone =>
        simp only [Device.init, hv]
        exact ⟨rfl, fun k h => h, fun k h => h⟩
      | one r =>
        simp only [Device.init, hv]
        rcases update_from_dict_registry reg d nad with h | h
        · rw [h]; exact ⟨rfl, fun k h => h, fun k h => h⟩
        · rw [h, hv]
          simp only [mergeRecords]
          exact ⟨rfl, fun k h => h, fun k h => h⟩
      | seq rs =>
        simp only [Device.init, hv]
        rcases update_from_dict_registry reg d nad with h | h
        · rw [h]; exact ⟨rfl, fun k h => h, fun k h => h⟩
        · rw [h, hv]
          exact mergeRecords_mono rs reg

theorem getChunk_join_fuel (k : Nat) :
    ∀ (fuel : Nat) (names : List String), names.length ≤ fuel →
      (getChunk names (k + 1)).flatten = names := by
  intro fuel
  induction fuel with
  | zero =>
    intro names h
    have hn : names = [] := List.eq_nil_of_length_eq_zero (Nat.le_zero.mp h)
    subst hn
    simp [getChunk]
  | succ f ih =>
    intro names h
    cases names with
    | nil => simp [getChunk]
    | cons n rest =>
      simp only [getChunk, List.flatten]
      rw [ih (rest.drop k) (by simp only [List.length_drop]; simp at h; omega)]
      simp [List.take_append_drop]

theorem getChunk_mem_fuel (k : Nat) :
    ∀ (fuel : Nat) (names : List String), names.length ≤ fuel →
      ∀ c ∈ getChunk names (k + 1), c.length ≤ k + 1 ∧ c ≠ [] := by
  intro fuel
  induction fuel with
  | zero =>
    intro names h c hc
    have hn : names = [] := List.eq_nil_of_length_eq_zero (Nat.le_zero.mp h)
    subst hn
    simp [getChunk] at hc
  | succ f ih =>
    intro names h c hc
    cases names with
    | nil => simp [getChunk] at hc
    | cons n rest =>
      simp only [getChunk] at hc
      rcases List.mem_cons.mp hc with h1 | h1
      · subst h1
        refine ⟨?_, by simp⟩
        simp only [List.length_cons, List.length_take]
        omega
      · exact ih (rest.drop k) (by simp only [List.length_drop]; simp at h; omega) c h1

/-- C4: the chunk operation splits an ordered name set into consecutive groups
that concatenate back to exactly the input (so every name lies in exactly one
group, in order, with no duplication or omission), no group exceeds
`maxBatchSize`, no group is empty, and the empty input yields zero groups. -/
theorem getChunk_partition (names : List String) (maxBatchSize : Nat)
    (h : 1 ≤ maxBatchSize) :
    (getChunk names maxBatchSize).flatten = names ∧
    (∀ c ∈ getChunk names maxBatchSize, c.length ≤ maxBatchSize ∧ c ≠ []) ∧
    getChunk [] maxBatchSize = [] := by
  obtain ⟨k, rfl⟩ : ∃ k, maxBatchSize = k + 1 := ⟨maxBatchSize - 1, by omega⟩
  exact ⟨getChunk_join_fuel k names.length names (le_refl _),
         getChunk_mem_fuel k names.length names (le_refl _),
         by simp [getChunk]⟩

/-- Witness for C4 at a concrete input. -/
theorem getChunk_partition_witness :
    (getChunk ["a", "b", "c"] 2).flatten = ["a", "b", "c"] ∧
    (∀ c ∈ getChunk ["a", "b", "c"] 2, c.length ≤ 2 ∧ c ≠ []) ∧
    getChunk [] 2 = [] :=
  getChunk_partition ["a", "b", "c"] 2 (by decide)

theorem regInv_set_both (u : PyDict String) (t : PyDict Int) (n s : String) (ty : Int)
    (h : u.all (fun p => dictHasKey t p.1) = true) :
    (dictSet u n s).all (fun p => dictHasKey (dictSet t n ty) p.1) = true := by
  rw [List.all_eq_true] at h ⊢
  intro p hp
  rcases mem_dictSet_cases hp with h1 | h1
  · rw [h1]
    exact dictHasKey_set_self _ _ _
  · exact dictHasKey_set_mono _ _ _ _ (h p h1)

theorem regInv_del_both (u : PyDict String) (t : PyDict Int) (n : String)
    (h : u.all (fun p => dictHasKey t p.1) = true) :
    (dictDel u n).all (fun p => dictHasKey (dictDel t n) p.1) = true := by
  rw [List.all_eq_true] at h ⊢
  intro p hp
  rcases mem_dictDel hp with ⟨h1, h2⟩
  exact dictHasKey_del_of_ne _ _ _ (h p h1) h2

theorem regInv_del_watch (u : PyDict String) (t : PyDict Int) (n : String)
    (h : u.all (fun p => dictHasKey t p.1) = true) :
    (dictDel u n).all (fun p => dictHasKey t p.1) = true := by
  rw [List.all_eq_true] at h ⊢
  intro p hp
  exact h p (mem_dictDel hp).1

theorem remove_var_registry (reg : Registry) (name : String) :
    regOfR (Device.remove_var reg name) = reg ∨
    regOfR (Device.remove_var reg name) = { reg with user_vars := dictDel reg.user_vars name } ∨
    regOfR (Device.remove_var reg name) =
      { reg with user_vars := dictDel reg.user_vars name,
                 vars_types := dictDel reg.vars_types name } := by
  unfold Device.remove_var
  by_cases h1 : dictHasKey reg.user_vars name = true
  · simp only [h1, if_true]
    by_cases h2 : dictHasKey reg.vars_types name = true
    · simp only [h2, if_true]
      right; right; rfl
    · simp only [h2, if_false]
      right; left; rfl
  · simp only [h1, if_false]
    left; rfl

theorem update_var_registry (reg : Registry) (data : RespData) (ty : Int) :
    regOfV (Device.update_var reg data ty) = reg ∨
    ∃ n r, regOfV (Device.update_var reg data ty) =
      { reg with vars := dictSet reg.vars n (Var.from_dict r),
                 vars_types := dictSet reg.vars_types n ty,
                 user_vars := dictSet reg.user_vars n "" } := by
  unfold Device.update_var
  by_cases hs : (data.size == 1) = true
  · rw [if_pos hs]
    cases hv : data.var with
    | none => left; rfl
    | some vf =>
      cases vf with
      | vNone => left; rfl
      | seq rs => left; rfl
      | one r =>
        dsimp only
        cases hr : r.name with
        | none => left; rfl
        | some n => right; exact ⟨n, r, rfl⟩
  · rw [if_neg hs]
    cases hv : data.var with
    | none => left; rfl
    | some vf =>
      cases vf with
      | vNone => left; rfl
      | one r =>
        dsimp only
        by_cases h : (r.name.isSome || r.value.isSome || r.description.isSome) = true
        · rw [if_pos h]; left; rfl
        · rw [if_neg h]; left; rfl
      | seq rs =>
        cases rs with
        | nil => left; rfl
        | cons r rest =>
          dsimp only
          cases hr : r.name with
          | none => left; rfl
          | some n => right; exact ⟨n, r, rfl⟩

/-! Concrete data used by the claim theorems. -/

/-- A watched-only registry left behind by a previous `add_var`. -/
def regWatchY : Registry := Device.add_var Registry.empty "c1.y" 0

/-- Record used for the single-record/sequence comparison. -/
def recSingle : VarRec :=
  { name := some "c2.scan_time", value := some "1", description := some "Desc." }

/-- Registry produced by merging `recSingle` into the empty registry. -/
def regAfterSingle : Registry :=
  { vars := [("c2.scan_time", Var.from_dict recSingle)],
    user_vars := [("c2.scan_time", "")],
    vars_types := [("c2.scan_time", 0)] }

/-- The two records of the repository's own `test_device_update_var` input. -/
def recTwoA : VarRec :=
  { name := some "c1000.scan_time", value := some "2", description := some "Desc." }

/-- Second record of that input. -/
def recTwoB : VarRec :=
  { name := some "c1000.scan_time_max", value := some "5", description := some "Desc." }

/-- The record echoed by a server for a write of `"5"` to `n1`. -/
def echoRec : VarRec :=
  { name := some "n1", value := some "5", description := some "write echo" }

/-- The echoed response (a well-formed single-record response mapping). -/
def echoResp : RespData := { var := some (.one echoRec), extras := 0 }

/-- The registry after merging the echoed record with var_type INT. -/
def regAfterEcho : Registry :=
  { vars := [("n1", Var.from_dict echoRec)],
    user_vars := [("n1", "")],
    vars_types := [("n1", 1)] }

/-- The 14 server-scope names `Cybro.update` requests and
`ServerInfo.from_vars` requires. -/
def sysNames : List String :=
  [ "sys.scgi_port_status", "sys.server_uptime", "sys.scgi_request_pending",
    "sys.scgi_request_count", "sys.push_port_status", "sys.push_count",
    "sys.push_ack_errors", "sys.push_list_count", "sys.cache_request",
    "sys.cache_valid", "sys.server_version", "sys.udp_rx_count",
    "sys.udp_tx_count", "sys.datalogger_status" ]

/-- A full server response: one record per required server-scope name. -/
def sysRecs : List VarRec :=
  sysNames.map (fun n => { name := some n, value := some "1", description := some "Desc." })

/-- A complete full-update response mapping. -/
def fullResp : RespData := { var := some (.seq sysRecs), extras := 0 }

/-- A var mapping containing every required server-scope name except
`sys.server_version`. -/
def serverVarsNoVersion : PyDict Var :=
  (sysNames.filter (fun n => n != "sys.server_version")).map
    (fun n => (n, ({ name := some n, value := some "1", description := some "Desc." } : Var)))

/-- The `PlcInfo` of the repository's `test_plc_info_parse_alc_file_empty`:
a valid controller snapshot whose `alc_file` was set to `None`. -/
def plcInfoNullAlc : PlcInfo :=
  { nad := 1000, ip_port := some "127.0.0.1:8442",
    timestamp := some "2022-08-20 15:52:46", plc_program_status := some "ok",
    response_time := some "3", bytes_transferred := some "200",
    comm_error_count := some "22", alc_file := none, plc_vars := [] }

/-- A registry left behind by a previous Device: `add_var "c1.x"` followed by a
merged single-shot read of `c1.y`. -/
def regPrev : Registry :=
  regOfV (Device.update_var (Device.add_var Registry.empty "c1.x" 3)
    { var := some (.one { name := some "c1.y", value := some "7", description := some "d" }),
      extras := 0 } 0)

/-- C1: for every variable mapping containing none of the required
`c<nad>.*` status keys of a configured NAD, `PlcInfo.from_vars` fails with
the controller-not-found error carrying that NAD. -/
theorem plcinfo_from_vars_missing_keys (vmap : PyDict Var) (nad : Int)
    (h : ∀ k ∈ requiredPlcKeys nad, dictHasKey vmap k = false) :
    PlcInfo.from_vars vmap nad = .error (.plcNotFound nad) := by
  have h1 : dictGet vmap ("c" ++ toString nad ++ ".sys.ip_port") = none :=
    dictGet_eq_none _ _ (h _ (by simp [requiredPlcKeys]))
  simp [PlcInfo.from_vars, getAttrValue, h1, Bind.bind, Except.bind]

/-- Witness for C1: the empty mapping and NAD 1000. -/
theorem plcinfo_from_vars_missing_keys_witness :
    PlcInfo.from_vars [] 1000 = .error (.plcNotFound 1000) :=
  plcinfo_from_vars_missing_keys [] 1000 (by decide)

/-- C2 (code divergence): building `ServerInfo` from a mapping that lacks
`sys.server_version` (or from the empty mapping, as the repository's own
`test_server_info_from_vars_exception` does) fails with the untyped built-in
`AttributeError`, not with any of the package's typed errors. -/
theorem serverinfo_from_vars_missing_key_attribute_error :
    ServerInfo.from_vars serverVarsNoVersion = .error .attributeError ∧
    ServerInfo.from_vars [] = .error .attributeError :=
  ⟨rfl, rfl⟩

/-- C3 (code divergence): for the same record, the bare-object response merges
and returns the value while the one-element-sequence response raises
`TypeError` in `Device.update_var`; in `Device.update_user_var_from_dict` the
bare-object shape raises `TypeError` (after storing a gutted Var) while the
one-element sequence merges correctly.  The two shapes never yield identical
registry merge results. -/
theorem update_shape_single_vs_sequence_diverge :
    Device.update_var Registry.empty { var := some (.one recSingle), extras := 0 } 0
      = .ok (some "1", regAfterSingle) ∧
    Device.update_var Registry.empty { var := some (.seq [recSingle]), extras := 0 } 0
      = .error (.typeError, Registry.empty) ∧
    Device.update_user_var_from_dict Registry.empty { var := some (.one recSingle), extras := 0 }
      = .error (.typeError,
        { Registry.empty with
            vars := [("c2.scan_time", { name := none, value := none, description := none })] }) ∧
    Device.update_user_var_from_dict Registry.empty { var := some (.seq [recSingle]), extras := 0 }
      = .ok { Registry.empty with vars := [("c2.scan_time", Var.from_dict recSingle)] } :=
  ⟨rfl, rfl, rfl, rfl⟩

/-- C5 (code divergence): a write of `"5"` with var_type INT followed by a
read with var_type INT against an echoing server returns the raw string
`"5"` both times — `Device.update_var` returns `self.vars[name].value`
unchanged and no coercion is applied on the read/write path — while the
stored Var retains the original string. -/
theorem read_write_returns_raw_string :
    Cybro.write_var_step Registry.empty echoResp VarType.INT.toInt
      = .ok (some "5", regAfterEcho) ∧
    Cybro.read_var_step regAfterEcho (some echoResp) VarType.INT.toInt
      = .ok (some "5", regAfterEcho) ∧
    dictGet regAfterEcho.vars "n1" = some (Var.from_dict echoRec) ∧
    (Var.from_dict echoRec).value = some "5" :=
  ⟨rfl, rfl, rfl, rfl⟩

/-- C6 (code divergence): `parse_alc_file` on a `PlcInfo` whose allocation
text is `None` raises `AttributeError` instead of returning an empty catalog. -/
theorem parse_alc_file_null_raises :
    PlcInfo.parse_alc_file plcInfoNullAlc = .error .attributeError :=
  rfl

/-- C7: removing a name that is not in the watched set fails with
`KeyError(name)` (the spec's UnknownVariable, carrying the name) raised by
`user_vars.pop` before any mutation, so the registry state in the error is
exactly the input registry. -/
theorem remove_var_unknown_fails_unchanged (reg : Registry) (name : String)
    (h : dictHasKey reg.user_vars name = false) :
    Device.remove_var reg name = .error (.keyError name, reg) := by
  unfold Device.remove_var
  rw [h]
  rfl

/-- Witness for C7: removing `c1.x` from a registry watching only `c1.y`. -/
theorem remove_var_unknown_fails_unchanged_witness :
    Device.remove_var regWatchY "c1.x" = .error (.keyError "c1.x", regWatchY) :=
  remove_var_unknown_fails_unchanged regWatchY "c1.x" (by decide)

/-- C8: the invariant "every watched name has a `vars_types` entry" holds for
the initial (empty) class-level registry and is preserved by `add_var`,
`remove_var`, the merge of a parsed response (`update_var`), `update_from_dict`
and Device construction — on both their success and their error states. -/
theorem registry_invariant_preserved :
    regInv Registry.empty = true ∧
    (∀ reg name ty, regInv reg = true →
      regInv (Device.add_var reg name ty) = true) ∧
    (∀ reg name, regInv reg = true →
      regInv (regOfR (Device.remove_var reg name)) = true) ∧
    (∀ reg data ty, regInv reg = true →
      regInv (regOfV (Device.update_var reg data ty)) = true) ∧
    (∀ reg data nad, regInv reg = true →
      regInv (regOfU (Device.update_from_dict reg data nad)) = true) ∧
    (∀ reg data nad, regInv reg = true →
      regInv (regOfU (Device.init reg data nad)) = true) := by
  refine ⟨rfl, ?_, ?_, ?_, ?_, ?_⟩
  · intro reg name ty h
    exact regInv_set_both reg.user_vars reg.vars_types name "" ty h
  · intro reg name h
    rcases remove_var_registry reg name with h1 | h1 | h1
    · rw [h1]; exact h
    · rw [h1]
      exact regInv_del_watch reg.user_vars reg.vars_types name h
    · rw [h1]
      exact regInv_del_both reg.user_vars reg.vars_types name h
  · intro reg data ty h
    rcases update_var_registry reg data ty with h1 | ⟨n, r, h1⟩
    · rw [h1]; exact h
    · rw [h1]
      exact regInv_set_both reg.user_vars reg.vars_types n "" ty h
  · intro reg data nad h
    rcases update_from_dict_registry reg data nad with h1 | h1
    · rw [h1]; exact h
    · rw [h1]
      refine regInv_of_mono reg _ h ?_ ?_
      · exact (mergeRecords_mono _ reg).1
      · exact (mergeRecords_mono _ reg).2.2
  · intro reg data nad h
    refine regInv_of_mono reg _ h ?_ ?_
    · exact (init_registry_mono reg data nad).1
    · exact (init_registry_mono reg data nad).2.2

/-- Witness for C8: the add_var conjunct at the initial registry. -/
theorem registry_invariant_preserved_witness :
    regInv (Device.add_var Registry.empty "c1.w" 2) = true :=
  registry_invariant_preserved.2.1 Registry.empty "c1.w" 2 (by decide)

/-- C9: the three registry dicts are Device class attributes, i.e. one
process-wide state threaded through every instance (see `Registry`);
constructing a new Device on that shared state never resets it: `__init__`
merges the response into it, leaving `user_vars` untouched and only ever
adding `vars` / `vars_types` entries, so names registered or merged through
any earlier Device remain visible after the new construction. -/
theorem device_init_merges_shared_registry (reg : Registry)
    (data : Option RespData) (nad : Int) :
    (regOfU (Device.init reg data nad)).user_vars = reg.user_vars ∧
    (∀ k, dictHasKey reg.vars k = true →
      dictHasKey (regOfU (Device.init reg data nad)).vars k = true) ∧
    (∀ k, dictHasKey reg.vars_types k = true →
      dictHasKey (regOfU (Device.init reg data nad)).vars_types k = true) :=
  init_registry_mono reg data nad

/-- Witness for C9: constructing a Device from a complete server response on
the registry left by a previous instance keeps that instance's watched name
`c1.x` and merged variable `c1.y`. -/
theorem device_init_merges_shared_registry_witness :
    (regOfU (Device.init regPrev (some fullResp) 0)).user_vars = regPrev.user_vars ∧
    dictHasKey (regOfU (Device.init regPrev (some fullResp) 0)).vars "c1.y" = true ∧
    dictHasKey (regOfU (Device.init regPrev (some fullResp) 0)).vars_types "c1.x" = true := by
  have h := device_init_merges_shared_registry regPrev (some fullResp) 0
  exact ⟨h.1, h.2.1 "c1.y" (by decide), h.2.2 "c1.x" (by decide)⟩

/-- C10 (code divergence): on a well-formed response mapping whose only key is
`var` holding a sequence of two records (the repository's own
`test_device_update_var` input), `update_var` raises `TypeError` and merges
nothing, because `len(data) == 1` routes it into the bare-object branch; the
claimed behaviour — merge exactly the first record, return its raw value,
and return `"?"` untouched when no record is present — occurs only when the
mapping has additional top-level keys. -/
theorem update_var_sequence_first_record_only :
    Device.update_var Registry.empty
        { var := some (.seq [recTwoA, recTwoB]), extras := 0 } 0
      = .error (.typeError, Registry.empty) ∧
    Device.update_var Registry.empty
        { var := some (.seq [recTwoA, recTwoB]), extras := 1 } 0
      = .ok (some "2",
        { vars := [("c1000.scan_time", Var.from_dict recTwoA)],
          user_vars := [("c1000.scan_time", "")],
          vars_types := [("c1000.scan_time", 0)] }) ∧
    Device.update_var Registry.empty { var := some (.seq []), extras := 1 } 0
      = .ok (some "?", Registry.empty) :=
  ⟨rfl, rfl, rfl⟩
